import Mathlib

/-!
Verification development for the ScienceBase weblinks module
(sciencebasepy/weblinks.py).

The Python module is shallowly embedded below.  External collaborators
(the requests HTTP client, BeautifulSoup, ElementTree, extruct, w3lib,
gis_metadata and the ScienceBase catalog session) are modelled as fields
of a `World` record of oracle functions, so theorems quantify over the
behaviour of those libraries.  Python dicts whose key set is fixed in the
source are embedded as records (a field value `none` models an absent
key); the mapping built by `meta_scraper`, whose keys are data, is
embedded as an association list with in-place overwrite, matching dict
assignment semantics.  Exceptions are modelled with `Except PyErr`: an
`Except.error` result is a Python exception propagating out of the call.
-/

/-- Python exception values the embedded code can raise or store. -/
inductive PyErr where
  | httpError (msg : String)
  | otherError (msg : String)
  | nameError (nm : String)
  | keyError (k : String)
  | attributeError (a : String)
  | valueError (msg : String)
  deriving DecidableEq, Repr

/-- The subset of a requests Response that weblinks.py reads.  `json` is
the outcome of the method call `r.json ()`: `some v` when the body
decodes as JSON (the decoded value is kept abstract as a string payload),
`none` when the decoder raises. -/
structure Response where
  status_code : Nat
  headers : List (String × String)
  encoding : Option String
  text : String
  url : String
  json : Option String
  deriving DecidableEq, Repr

/-- The annotation dict built by `get_weblink_response` and extended by
`link_meta`.  Its key set is fixed in the source, so it is embedded as a
record; a field value `none` models a key absent from the dict.  The
source stores the caught exception object itself under error_message, so
the field holds a `PyErr`.  The record embeds the Python dict stored
under the key named "annotation". -/
structure Annot where
  link_check_date : String
  content_type : String
  error_message : Option PyErr := none
  status_code : Option Nat := none
  headers : Option (List (String × String)) := none
  encoding : Option (Option String) := none
  meta_content : Option (List (String × Option String)) := none
  structured_data : Option (Option String) := none
  xml_meta_summary : Option (List (String × String)) := none
  json_content : Option String := none
  deriving DecidableEq, Repr

/-- A ScienceBase web link dict.  `uri`, `type_` and `title` embed the
like-named keys of the dict (the key "type" is `type_`); `others` carries
any further keys verbatim; `annot` embeds the key named "annotation"
(`none` when that key is absent). -/
structure WebLink where
  uri : String
  type_ : String
  title : String
  others : List (String × String) := []
  annot : Option Annot := none
  deriving DecidableEq, Repr

/-- One meta element as BeautifulSoup presents it to `meta_scraper`:
`name` is the value of the name attribute (`none` when the attribute is
absent, in which case the Python lookup with a default returns the empty
string), `content` likewise for the content attribute (`none` makes the
subscript raise KeyError, which the source catches with a bare except). -/
structure MetaTag where
  name : Option String
  content : Option String
  deriving DecidableEq, Repr

/-- The face of a parsed BeautifulSoup document that `meta_scraper`
reads: `title` is `some s` when a title element exists and its string
attribute is `s` (the inner option models a title element whose string is
Python None), and `metas` lists every meta element in document order. -/
structure Soup where
  title : Option (Option String)
  metas : List MetaTag
  deriving DecidableEq, Repr

/-- The twelve fields `summarize_xml_meta` republishes from the parser
object returned by the gis_metadata library; payloads kept abstract. -/
structure MetaParserData where
  title : String := ""
  abstract : String := ""
  place_keywords : String := ""
  thematic_keywords : String := ""
  attributes : String := ""
  bounding_box : String := ""
  contacts : String := ""
  dates : String := ""
  digital_forms : String := ""
  larger_works : String := ""
  process_steps : String := ""
  raster_info : String := ""
  deriving DecidableEq, Repr

/-- A catalog item as returned by SbSession.get_item restricted to the
webLinks field: `none` models an item dict without a "webLinks" key. -/
structure Item where
  webLinks : Option (List WebLink)
  deriving DecidableEq, Repr

/-- The structure `fetch_web_links` returns: the item id and its links. -/
structure SimpleItem where
  id : String
  webLinks : List WebLink
  deriving DecidableEq, Repr

/-- Oracles for the external collaborators of weblinks.py.  `get` models
requests.get with the Accept header of the source (an `Except.error` is
an exception raised by the call); `htmlFindsElement` models the
truthiness of the first element found by BeautifulSoup on a text;
`xmlParses` models whether ET.fromstring succeeds on a text; `soupOf`
models BeautifulSoup parsing for `meta_scraper`; `extructExtract` models
extruct extraction from a text relative to a base url; `baseUrlOf`
models w3lib get_base_url; `metadataParserOf` models the gis_metadata
parser lookup, which raises on unrecognized schemas; `getItem` models
SbSession.get_item with the webLinks field projection; `now` models the
current UTC timestamp in ISO format. -/
structure World where
  now : String := "2024-01-01T00:00:00"
  get : String → Except PyErr Response :=
    fun _ => Except.error (PyErr.otherError "connection error")
  htmlFindsElement : String → Bool := fun _ => false
  xmlParses : String → Bool := fun _ => false
  soupOf : String → Soup := fun _ => { title := none, metas := [] }
  extructExtract : String → String → Except PyErr String := fun _ _ => Except.ok ""
  baseUrlOf : String → String → String := fun _ u => u
  metadataParserOf : String → Except PyErr MetaParserData :=
    fun _ => Except.error (PyErr.valueError "No parser available")
  getItem : String → Item := fun _ => { webLinks := none }

/-- Models the calls to requests.get followed by raise_for_status on the
response: raise_for_status raises HTTPError exactly when the status code
lies in the 4xx or 5xx range. -/
def fetchWithRaise (w : World) (uri : String) : Except PyErr Response :=
  match w.get uri with
  | Except.error e => Except.error e
  | Except.ok resp =>
    if 400 ≤ resp.status_code ∧ resp.status_code < 600 then
      Except.error (PyErr.httpError (toString resp.status_code))
    else Except.ok resp

/-- The names bound at module scope of weblinks.py by its import
statements and definitions.  The name HTTPError is NOT among them: the
module never imports it, although its first except clause mentions it. -/
def weblinksModuleNames : List String :=
  ["print_function", "requests", "extruct", "get_base_url", "BeautifulSoup",
   "get_metadata_parser", "ET", "datetime", "SbSession", "Weblinks"]

/-- Embeds Weblinks.get_weblink_response.  The fresh annotation dict is
assigned first; then the try block runs requests.get and
raise_for_status.  When the try block raises, Python evaluates the first
clause, reading the name HTTPError: because that name is unbound at
module scope, the lookup itself raises NameError before any handler can
run, and later clauses are not tried, so the whole call raises.  The
handlers as written in the source are kept here behind the (false) guard
that HTTPError is bound, so they remain visible but unreachable.  On a
response, status code, headers and encoding are recorded; a non-200
status returns at once; a 200 body is classified by trial parsing: an
HTML element found means xml on a successful strict XML parse and html
otherwise, else json on a successful JSON decode, else UNKNOWN.  Python
mutates the link dict in place; the returned link carries the mutation. -/
def get_weblink_response (w : World) (wl : WebLink) :
    Except PyErr (WebLink × Option Response) :=
  let a0 : Annot := { link_check_date := w.now, content_type := "UNKNOWN" }
  match fetchWithRaise w wl.uri with
  | Except.error e =>
    if weblinksModuleNames.contains "HTTPError" then
      match e with
      | PyErr.httpError m =>
        Except.ok ({ wl with annot := some { a0 with
          content_type := "HTTP_ERROR",
          error_message := some (PyErr.httpError m) } }, none)
      | _ =>
        Except.ok ({ wl with annot := some { a0 with
          content_type := "ERROR", error_message := some e } }, none)
    else Except.error (PyErr.nameError "HTTPError")
  | Except.ok resp =>
    let a1 : Annot := { a0 with
      status_code := some resp.status_code,
      headers := some resp.headers,
      encoding := some resp.encoding }
    if resp.status_code ≠ 200 then
      Except.ok ({ wl with annot := some a1 }, some resp)
    else
      let ct : String :=
        if w.htmlFindsElement resp.text then
          (if w.xmlParses resp.text then "xml" else "html")
        else
          (if (resp.json).isSome then "json" else "UNKNOWN")
      Except.ok ({ wl with annot := some { a1 with content_type := ct } }, some resp)

/-- Association list insert with Python dict assignment semantics: an
existing key keeps its position and gets the new value, a new key is
appended at the end. -/
def dictInsert : List (String × Option String) → String → Option String →
    List (String × Option String)
  | [], k, v => [(k, v)]
  | (k0, v0) :: rest, k, v =>
    if k0 = k then (k0, v) :: rest else (k0, v0) :: dictInsert rest k v

/-- Association list lookup: `some v` when the key is present with value
`v`, `none` when the key is absent. -/
def dictLookup : List (String × Option String) → String → Option (Option String)
  | [], _ => none
  | (k0, v0) :: rest, k => if k0 = k then some v0 else dictLookup rest k

/-- Models the Python strip method on strings: remove whitespace from
both ends. -/
def pyStrip (s : String) : String :=
  String.mk
    ((s.data.dropWhile Char.isWhitespace).reverse.dropWhile Char.isWhitespace).reverse

/-- One iteration of the meta loop of `meta_scraper`: the name attribute
defaults to the empty string when absent (and is always a string, so the
isinstance check on it is vacuously true); the content attribute is
stripped, a missing one raising KeyError which the bare except turns into
None; the entry is stored when the stripped content is a non-empty
string.  The source never tests the name for non-emptiness. -/
def metaStep (d : List (String × Option String)) (m : MetaTag) :
    List (String × Option String) :=
  match m.content with
  | none => d
  | some c =>
    if 0 < (pyStrip c).length then dictInsert d (m.name.getD "") (some (pyStrip c))
    else d

/-- Embeds Weblinks.meta_scraper: starts from the title entry when a
title element is present, then folds the meta loop over every meta
element in document order. -/
def meta_scraper (soup : Soup) : List (String × Option String) :=
  let d0 : List (String × Option String) :=
    match soup.title with
    | none => []
    | some s => [("title", s)]
  soup.metas.foldl metaStep d0

/-- Embeds Weblinks.summarize_xml_meta: obtains the gis_metadata parser
for the content (a failed lookup raises and propagates, the source has no
handler here) and republishes its twelve fields. -/
def summarize_xml_meta (w : World) (xml_content : String) :
    Except PyErr (List (String × String)) :=
  match w.metadataParserOf xml_content with
  | Except.error e => Except.error e
  | Except.ok meta =>
    Except.ok [("title", meta.title), ("abstract", meta.abstract),
      ("place_keywords", meta.place_keywords),
      ("thematic_keywords", meta.thematic_keywords),
      ("attributes", meta.attributes), ("bounding_box", meta.bounding_box),
      ("contacts", meta.contacts), ("dates", meta.dates),
      ("digital_forms", meta.digital_forms),
      ("larger_works", meta.larger_works),
      ("process_steps", meta.process_steps),
      ("raster_info", meta.raster_info)]

/-- Embeds Weblinks.fetch_web_links: project the item to its webLinks
field, return None when the key is absent, filter by type then by title
when those arguments are given, return None when no link remains, else
the id plus links structure. -/
def fetch_web_links (w : World) (item_id : String)
    (link_type link_title : Option String) : Option SimpleItem :=
  let item := w.getItem item_id
  match item.webLinks with
  | none => none
  | some wls0 =>
    let wls1 := match link_type with
      | none => wls0
      | some t => wls0.filter (fun l => l.type_ == t)
    let wls2 := match link_title with
      | none => wls1
      | some t => wls1.filter (fun l => l.title == t)
    if wls2.length = 0 then none
    else some { id := item_id, webLinks := wls2 }

/-- The html block of `link_meta`: when the recorded content type is
html, run `meta_scraper` on the body, then attempt extruct extraction
relative to the resolved base url, any extraction failure being recorded
as a None structured_data.  Reading the body of an absent response would
raise AttributeError, as in Python. -/
def linkMetaHtml (w : World) (a : Annot) (r : Option Response) :
    Except PyErr Annot :=
  if a.content_type = "html" then
    match r with
    | none => Except.error (PyErr.attributeError "text")
    | some resp =>
      let mc := meta_scraper (w.soupOf resp.text)
      let sd : Option String :=
        match w.extructExtract resp.text (w.baseUrlOf resp.text resp.url) with
        | Except.ok d => some d
        | Except.error _ => none
      Except.ok { a with meta_content := some mc, structured_data := some sd }
  else Except.ok a

/-- The xml block of `link_meta`: when the recorded content type is xml,
run `summarize_xml_meta` on the body; the source wraps this call in no
handler, so its exceptions propagate. -/
def linkMetaXml (w : World) (a : Annot) (r : Option Response) :
    Except PyErr Annot :=
  if a.content_type = "xml" then
    match r with
    | none => Except.error (PyErr.attributeError "text")
    | some resp =>
      match summarize_xml_meta w resp.text with
      | Except.error e => Except.error e
      | Except.ok s => Except.ok { a with xml_meta_summary := some s }
  else Except.ok a

/-- The json block of `link_meta`: when the recorded content type is
json, decode the body again and store the value; a decode failure would
raise, but classification already guarantees success. -/
def linkMetaJson (a : Annot) (r : Option Response) : Except PyErr Annot :=
  if a.content_type = "json" then
    match r with
    | none => Except.error (PyErr.attributeError "json")
    | some resp =>
      match resp.json with
      | none => Except.error (PyErr.valueError "No JSON object could be decoded")
      | some j => Except.ok { a with json_content := some j }
  else Except.ok a

/-- Embeds Weblinks.link_meta: fetch and classify, then run the html, xml
and json blocks in order.  The source re-reads the content type from the
dict before each block; the blocks never change the content type, so
threading the record through is equivalent. -/
def link_meta (w : World) (wl : WebLink) : Except PyErr WebLink :=
  match get_weblink_response w wl with
  | Except.error e => Except.error e
  | Except.ok (al, r) =>
    match al.annot with
    | none => Except.error (PyErr.keyError "content_type")
    | some a =>
      match linkMetaHtml w a r with
      | Except.error e => Except.error e
      | Except.ok a1 =>
        match linkMetaXml w a1 r with
        | Except.error e => Except.error e
        | Except.ok a2 =>
          match linkMetaJson a2 r with
          | Except.error e => Except.error e
          | Except.ok a3 => Except.ok { al with annot := some a3 }

/-- The argument of `process_web_links`: a single dict, a list of dicts,
or a value of some other runtime type such as None or a string. -/
inductive LinksArg where
  | link (wl : WebLink)
  | links (ls : List WebLink)
  | pyNone
  | pyStr (s : String)
  deriving DecidableEq, Repr

/-- The result of `process_web_links`: one enriched link for a dict
argument, a list for a list argument, or the implicit Python None when
neither isinstance test matches. -/
inductive ProcResult where
  | one (wl : WebLink)
  | many (ls : List WebLink)
  | noneResult
  deriving DecidableEq, Repr

/-- The list comprehension of `process_web_links`: `link_meta` applied
left to right, the first exception aborting the whole comprehension. -/
def linkMetaList (w : World) : List WebLink → Except PyErr (List WebLink)
  | [] => Except.ok []
  | wl :: rest =>
    match link_meta w wl with
    | Except.error e => Except.error e
    | Except.ok al =>
      match linkMetaList w rest with
      | Except.error e => Except.error e
      | Except.ok als => Except.ok (al :: als)

/-- Embeds Weblinks.process_web_links: a dict argument is enriched
directly, a list argument elementwise via the comprehension, and any
other argument falls through both isinstance tests to the implicit
return None. -/
def process_web_links (w : World) (arg : LinksArg) : Except PyErr ProcResult :=
  match arg with
  | LinksArg.link wl =>
    match link_meta w wl with
    | Except.error e => Except.error e
    | Except.ok al => Except.ok (ProcResult.one al)
  | LinksArg.links ls =>
    match linkMetaList w ls with
    | Except.error e => Except.error e
    | Except.ok als => Except.ok (ProcResult.many als)
  | LinksArg.pyNone => Except.ok ProcResult.noneResult
  | LinksArg.pyStr _ => Except.ok ProcResult.noneResult

/-- The stripped content of the last meta element of the list that is
stored under key `k` by the meta loop: a later element with the same
effective name (the name attribute, defaulting to the empty string)
overwrites an earlier one; elements whose stripped content is empty or
whose content attribute is absent store nothing. -/
def lastMetaContent : List MetaTag → String → Option String
  | [], _ => none
  | m :: rest, k =>
    match lastMetaContent rest k with
    | some v => some v
    | none =>
      match m.content with
      | none => none
      | some c =>
        if 0 < (pyStrip c).length ∧ m.name.getD "" = k then some (pyStrip c)
        else none

/-- A web link whose URI is unreachable: the model world `wFail` makes
every GET raise a connection error. -/
def exLink : WebLink :=
  { uri := "http://bad.example/x", type_ := "webLink", title := "Bad" }

/-- A second unreachable link for batch examples. -/
def exLink2 : WebLink :=
  { uri := "http://bad2.example/y", type_ := "webLink", title := "Bad2" }

/-- A world in which every GET raises a connection error. -/
def wFail : World := {}

/-- A response with a 404 status code. -/
def resp404 : Response :=
  { status_code := 404, headers := [("Content-Type", "text/plain")],
    encoding := some "utf-8", text := "not found", url := "http://bad.example/x",
    json := none }

/-- A world in which every GET yields a 404 response, so that
raise_for_status raises HTTPError. -/
def w404 : World := { get := fun _ => Except.ok resp404 }

/-- A 200 response whose body parses as HTML but not as strict XML. -/
def respHtml : Response :=
  { status_code := 200, headers := [("Content-Type", "text/html")],
    encoding := some "utf-8", text := "<html><body>hi</body></html>",
    url := "http://site.example/", json := none }

/-- A world in which every GET yields `respHtml`, the HTML parser finds
an element and the strict XML parse fails. -/
def wHtml : World :=
  { get := fun _ => Except.ok respHtml,
    htmlFindsElement := fun _ => true,
    xmlParses := fun _ => false }

/-- A link to the HTML world. -/
def exLinkHtml : WebLink :=
  { uri := "http://site.example/", type_ := "webLink", title := "Site" }

/-- A 204 No Content response: a status that raise_for_status lets pass
but that is not 200. -/
def resp204 : Response :=
  { status_code := 204, headers := [("Server", "x")], encoding := some "utf-8",
    text := "", url := "http://ok.example/", json := none }

/-- A world in which every GET yields `resp204`. -/
def w204 : World := { get := fun _ => Except.ok resp204 }

/-- A link to the 204 world. -/
def exLink204 : WebLink :=
  { uri := "http://ok.example/", type_ := "webLink", title := "NoContent" }

/-- A 200 plain-text response: no HTML element, no JSON decode. -/
def respPlain : Response :=
  { status_code := 200, headers := [], encoding := none, text := "plain text",
    url := "http://plain.example/", json := none }

/-- A world in which every GET yields `respPlain`. -/
def wFrame : World := { get := fun _ => Except.ok respPlain }

/-- A link carrying an extra key, to watch frame preservation. -/
def exLinkPlain : WebLink :=
  { uri := "http://plain.example/", type_ := "webLink", title := "Plain",
    others := [("hidden", "keep")] }

/-- The enrichment of `exLinkPlain` in the world `wFrame`. -/
def alPlain : WebLink :=
  { exLinkPlain with annot := some (
    { link_check_date := "2024-01-01T00:00:00", content_type := "UNKNOWN",
      status_code := some 200, headers := some [], encoding := some none : Annot }) }

/-- A 200 HTML page response for the extraction-failure example. -/
def respHtmlPage : Response :=
  { status_code := 200, headers := [("Content-Type", "text/html")],
    encoding := some "utf-8", text := "<html><body>page</body></html>",
    url := "http://page.example/", json := none }

/-- A world in which every GET yields an HTML page and every extruct
extraction raises. -/
def wExtructFail : World :=
  { get := fun _ => Except.ok respHtmlPage,
    htmlFindsElement := fun _ => true,
    extructExtract := fun _ _ => Except.error (PyErr.valueError "extraction failed") }

/-- A link to the HTML page. -/
def pageLink : WebLink :=
  { uri := "http://page.example/", type_ := "webLink", title := "Page" }

/-- A link whose host is down in the mixed world. -/
def badLink : WebLink :=
  { uri := "http://down.example/", type_ := "webLink", title := "Down" }

/-- A world in which the page link fetches fine as HTML and every other
GET raises a connection error. -/
def wMixed : World :=
  { get := fun u =>
      if u = "http://page.example/" then Except.ok respHtmlPage
      else Except.error (PyErr.otherError "connection error"),
    htmlFindsElement := fun _ => true }

/-- A download-typed link for the filter example. -/
def dlLink : WebLink :=
  { uri := "http://download.example/data.zip", type_ := "download",
    title := "Data download" }

/-- An info-typed link for the filter example. -/
def infoLink : WebLink :=
  { uri := "http://info.example/page", type_ := "info", title := "Info page" }

/-- A world whose catalog returns an item holding the download link and
the info link. -/
def wCatalog : World :=
  { getItem := fun _ => { webLinks := some [dlLink, infoLink] } }

/-- C1: the claim says a failed fetch returns the annotated link with an
HTTP_ERROR or ERROR content type, an error message and no status code.
The code instead raises: the name HTTPError in the first except clause is
unbound at module scope, so evaluating the clause raises NameError for
any exception from the try block.  This theorem evaluates the embedded
function at a link whose GET raises a connection error and at a link
whose GET yields a 404 status, showing that both calls raise NameError
instead of returning an annotated link. -/
theorem c1_fetch_error_raises_nameerror :
    get_weblink_response wFail exLink = Except.error (PyErr.nameError "HTTPError") ∧
    get_weblink_response w404 exLink = Except.error (PyErr.nameError "HTTPError") :=
  ⟨rfl, rfl⟩

/-- C8: re-annotating an already annotated link overwrites the whole
record built by get_weblink_response: the result of annotating a link,
with get_weblink_response or with link_meta, is independent of whatever
prior value sat under the annotation key, so no stale sub-field can
survive. -/
theorem c8_reannotation_overwrites (w : World) (wl : WebLink) (a : Option Annot) :
    get_weblink_response w { wl with annot := a } =
      get_weblink_response w { wl with annot := none } ∧
    link_meta w { wl with annot := a } =
      link_meta w { wl with annot := none } := by
  have h1 : get_weblink_response w { wl with annot := a } =
      get_weblink_response w { wl with annot := none } := rfl
  refine ⟨h1, ?_⟩
  unfold link_meta
  rw [h1]

/-- C10: an argument of process_web_links that is neither a dict nor a
list, such as None or a string, falls through both isinstance tests: the
function performs no fetch (the result does not depend on the world) and
returns None rather than raising. -/
theorem c10_non_mapping_returns_none (w : World) (s : String) :
    process_web_links w LinksArg.pyNone = Except.ok ProcResult.noneResult ∧
    process_web_links w (LinksArg.pyStr s) = Except.ok ProcResult.noneResult :=
  ⟨rfl, rfl⟩

/-- C6: the claim says a batch of N links always yields N enriched links
even if every fetch failed.  The code instead raises on the first failed
fetch: this theorem evaluates process_web_links on a two-link batch in a
world where every GET raises and shows the whole call raises NameError
(from the unbound HTTPError name) instead of returning two annotated
links. -/
theorem c6_batch_raises_on_fetch_failure :
    process_web_links wFail (LinksArg.links [exLink, exLink2]) =
      Except.error (PyErr.nameError "HTTPError") :=
  rfl

/-- C5: the first conjunct confirms the narrow part of the claim that a
failed structured-data extraction is downgraded to a None structured_data
field.  The second conjunct refutes the broad part: a batch whose second
link has an unreachable URI makes the whole process_web_links call raise
NameError, because the unbound HTTPError name turns any fetch failure
into an uncaught exception, so one bad link does fail the batch. -/
theorem c5_extraction_downgraded_but_batch_raises :
    link_meta wExtructFail pageLink =
      Except.ok { pageLink with annot := some (
        { link_check_date := "2024-01-01T00:00:00", content_type := "html",
          status_code := some 200,
          headers := some [("Content-Type", "text/html")],
          encoding := some (some "utf-8"), meta_content := some [],
          structured_data := some none : Annot }) } ∧
    process_web_links wMixed (LinksArg.links [pageLink, badLink]) =
      Except.error (PyErr.nameError "HTTPError") :=
  ⟨rfl, rfl⟩

/-- C7 counterexample: a meta element with no name attribute and content
x is recorded by meta_scraper under the empty-string key, although the
claim says only meta tags with a non-empty text name contribute an entry:
on this input the claim predicts the empty mapping. -/
theorem c7_counterexample_empty_name :
    meta_scraper { title := none, metas := [{ name := none, content := some "x" }] } =
      [("", some "x")] :=
  rfl

/-- C2: for a 200 response, classification is exactly the ordered trial
parse of the source: when the HTML parser finds an element the body is
also given to the strict XML parser, xml on success and html on failure;
when no HTML element is found the body is given to the JSON decoder,
json on success and UNKNOWN on failure.  In particular a valid XHTML
body, where both the HTML and the XML parse succeed, is classified xml
and never html. -/
theorem c2_ordered_classification (w : World) (wl : WebLink) (resp : Response)
    (h1 : w.get wl.uri = Except.ok resp) (h2 : resp.status_code = 200) :
    get_weblink_response w wl =
      Except.ok ({ wl with annot := some (
        { link_check_date := w.now,
          content_type :=
            if w.htmlFindsElement resp.text then
              (if w.xmlParses resp.text then "xml" else "html")
            else (if (resp.json).isSome then "json" else "UNKNOWN"),
          status_code := some resp.status_code,
          headers := some resp.headers,
          encoding := some resp.encoding : Annot }) }, some resp) := by
  unfold get_weblink_response fetchWithRaise
  rw [h1]
  simp [h2]

/-- Witness for C2 at a concrete world whose GET yields a 200 HTML body
that is not strict XML: the classification is html. -/
theorem c2_ordered_classification_witness :
    get_weblink_response wHtml exLinkHtml =
      Except.ok ({ exLinkHtml with annot := some (
        { link_check_date := "2024-01-01T00:00:00", content_type := "html",
          status_code := some 200,
          headers := some [("Content-Type", "text/html")],
          encoding := some (some "utf-8") : Annot }) }, some respHtml) :=
  c2_ordered_classification wHtml exLinkHtml respHtml rfl rfl

/-- C3: whenever the fetch yields a response, that is, whenever
requests.get returns and raise_for_status does not raise, the annotation
records the status code, the full header mapping and the encoding
whatever the status value is; and on a non-200 status the function
returns at once with content type still UNKNOWN and none of the deeper
classification fields set. -/
theorem c3_response_metadata_recorded (w : World) (wl : WebLink) (resp : Response)
    (h1 : w.get wl.uri = Except.ok resp)
    (h2 : ¬(400 ≤ resp.status_code ∧ resp.status_code < 600)) :
    ∃ a : Annot,
      get_weblink_response w wl = Except.ok ({ wl with annot := some a }, some resp) ∧
      a.link_check_date = w.now ∧
      a.status_code = some resp.status_code ∧
      a.headers = some resp.headers ∧
      a.encoding = some resp.encoding ∧
      (resp.status_code ≠ 200 →
        a.content_type = "UNKNOWN" ∧ a.meta_content = none ∧
        a.structured_data = none ∧ a.xml_meta_summary = none ∧
        a.json_content = none ∧ a.error_message = none) := by
  by_cases hs : resp.status_code = 200
  · refine ⟨{ link_check_date := w.now,
              content_type :=
                if w.htmlFindsElement resp.text then
                  (if w.xmlParses resp.text then "xml" else "html")
                else (if (resp.json).isSome then "json" else "UNKNOWN"),
              status_code := some resp.status_code,
              headers := some resp.headers,
              encoding := some resp.encoding }, ?_, rfl, rfl, rfl, rfl, ?_⟩
    · unfold get_weblink_response fetchWithRaise
      rw [h1]
      simp [hs]
    · intro hne
      exact absurd hs hne
  · refine ⟨{ link_check_date := w.now, content_type := "UNKNOWN",
              status_code := some resp.status_code,
              headers := some resp.headers,
              encoding := some resp.encoding }, ?_, rfl, rfl, rfl, rfl, ?_⟩
    · unfold get_weblink_response fetchWithRaise
      rw [h1]
      simp [h2, hs]
    · intro _
      exact ⟨rfl, rfl, rfl, rfl, rfl, rfl⟩

/-- Witness for C3 at a concrete world whose GET yields a 204 response:
status code, headers and encoding are recorded, classification is not
attempted. -/
theorem c3_response_metadata_recorded_witness :
    ∃ a : Annot,
      get_weblink_response w204 exLink204 =
        Except.ok ({ exLink204 with annot := some a }, some resp204) ∧
      a.link_check_date = "2024-01-01T00:00:00" ∧
      a.status_code = some 204 ∧
      a.headers = some [("Server", "x")] ∧
      a.encoding = some (some "utf-8") ∧
      (204 ≠ 200 →
        a.content_type = "UNKNOWN" ∧ a.meta_content = none ∧
        a.structured_data = none ∧ a.xml_meta_summary = none ∧
        a.json_content = none ∧ a.error_message = none) :=
  c3_response_metadata_recorded w204 exLink204 resp204 rfl (by decide)

/-- C4: fetch_web_links returns None when the fetched item has no
webLinks key; otherwise it keeps exactly the links matching the type
filter and the title filter, two independent exact-match conditions
combined with a conjunction, returning None when nothing remains and the
id plus links structure otherwise.  The second conjunct checks the
concrete case of the claim: filtering by the download type over a
download link and an info link keeps only the download link. -/
theorem c4_fetch_web_links_filters (w : World) (iid : String) (ty ti : Option String) :
    (fetch_web_links w iid ty ti =
      match (w.getItem iid).webLinks with
      | none => none
      | some wls =>
        let keep := wls.filter (fun l =>
          (match ty with | none => true | some t => l.type_ == t) &&
          (match ti with | none => true | some t => l.title == t))
        if keep.length = 0 then none else some { id := iid, webLinks := keep }) ∧
    fetch_web_links wCatalog "item1" (some "download") none =
      some { id := "item1", webLinks := [dlLink] } := by
  constructor
  · unfold fetch_web_links
    cases hW : (w.getItem iid).webLinks with
    | none => simp [hW]
    | some wls =>
      cases ty with
      | none =>
        cases ti with
        | none => simp [hW]
        | some t => simp [hW]
      | some t =>
        cases ti with
        | none => simp [hW]
        | some t2 => simp [hW, List.filter_filter, Bool.and_comm]
  · rfl

/-- A dict lookup after a dict insert sees the inserted value at the
inserted key and is unchanged elsewhere. -/
theorem dictLookup_dictInsert (d : List (String × Option String))
    (k k2 : String) (v : Option String) :
    dictLookup (dictInsert d k v) k2 =
      if k2 = k then some v else dictLookup d k2 := by
  induction d with
  | nil =>
    simp only [dictInsert, dictLookup]
    by_cases h : k = k2
    · subst h
      simp
    · rw [if_neg h, if_neg (fun hh => h hh.symm)]
  | cons p rest ih =>
    obtain ⟨k0, v0⟩ := p
    simp only [dictInsert]
    by_cases h0 : k0 = k
    · subst h0
      simp only [if_pos rfl, dictLookup]
      by_cases h2 : k0 = k2
      · subst h2
        simp
      · rw [if_neg h2, if_neg (fun hh => h2 hh.symm), if_neg h2]
    · rw [if_neg h0]
      simp only [dictLookup]
      by_cases h2 : k0 = k2
      · subst h2
        rw [if_pos rfl, if_neg h0, if_pos rfl]
      · rw [if_neg h2, if_neg h2, ih]

/-- Folding the meta loop over a list of meta elements makes lookup at
any key return the stripped content of the last storing element with
that effective name, and fall back to the initial dict otherwise. -/
theorem dictLookup_foldl_metaStep (metas : List MetaTag)
    (d : List (String × Option String)) (k : String) :
    dictLookup (metas.foldl metaStep d) k =
      match lastMetaContent metas k with
      | some v => some (some v)
      | none => dictLookup d k := by
  induction metas generalizing d with
  | nil => rfl
  | cons m rest ih =>
    simp only [List.foldl_cons, ih]
    cases hrest : lastMetaContent rest k with
    | some v => simp [lastMetaContent, hrest]
    | none =>
      simp only [lastMetaContent, hrest]
      cases hc : m.content with
      | none => simp [metaStep, hc]
      | some c =>
        simp only [metaStep, hc]
        by_cases hq : 0 < (pyStrip c).length
        · rw [if_pos hq, dictLookup_dictInsert]
          by_cases hn : m.name.getD "" = k
          · rw [if_pos hn.symm, if_pos ⟨hq, hn⟩]
          · rw [if_neg (fun hh => hn hh.symm), if_neg (fun hand => hn hand.2)]
        · rw [if_neg hq, if_neg (fun hand => hq hand.1)]

/-- C7 as amended: lookup in the mapping built by meta_scraper returns
the stripped content of the last meta element whose effective name (the
name attribute, the empty string when the attribute is absent, with no
non-emptiness requirement on the name) matches the key and whose
stripped content is non-empty, falling back to the title entry for the
key title when a title element is present, and to absence otherwise.
The second conjunct checks the concrete example of the claim: an input
with title T and one meta with name a and content " b " yields exactly
the title entry and the entry a with the stripped value b. -/
theorem c7_meta_scraper_characterization (soup : Soup) (k : String) :
    (dictLookup (meta_scraper soup) k =
      match lastMetaContent soup.metas k with
      | some v => some (some v)
      | none => if k = "title" then soup.title else none) ∧
    meta_scraper { title := some (some "T"),
                   metas := [{ name := some "a", content := some " b " }] } =
      [("title", some "T"), ("a", some "b")] := by
  constructor
  · unfold meta_scraper
    rw [dictLookup_foldl_metaStep]
    cases hl : lastMetaContent soup.metas k with
    | some v => rfl
    | none =>
      cases ht : soup.title with
      | none =>
        by_cases hk : k = "title"
        · simp [dictLookup, hk]
        · simp [dictLookup, hk]
      | some s =>
        simp only [dictLookup]
        by_cases hk : k = "title"
        · rw [if_pos hk.symm, if_pos hk]
        · rw [if_neg (fun hh => hk hh.symm), if_neg hk]
  · rfl

/-- A successful get_weblink_response returns the input link with only
its annotation key replaced. -/
theorem gwr_shape (w : World) (wl al : WebLink) (r : Option Response)
    (h : get_weblink_response w wl = Except.ok (al, r)) :
    ∃ a : Annot, al = { wl with annot := some a } := by
  unfold get_weblink_response at h
  cases hf : fetchWithRaise w wl.uri with
  | error e =>
    rw [hf] at h
    simp [weblinksModuleNames] at h
  | ok resp =>
    rw [hf] at h
    dsimp only at h
    by_cases hs : resp.status_code ≠ 200
    · rw [if_pos hs] at h
      simp only [Except.ok.injEq, Prod.mk.injEq] at h
      exact ⟨_, h.1.symm⟩
    · rw [if_neg hs] at h
      simp only [Except.ok.injEq, Prod.mk.injEq] at h
      exact ⟨_, h.1.symm⟩

/-- A successful link_meta returns the input link with only its
annotation key replaced. -/
theorem link_meta_shape (w : World) (wl bl : WebLink)
    (h : link_meta w wl = Except.ok bl) :
    ∃ a : Annot, bl = { wl with annot := some a } := by
  unfold link_meta at h
  cases hg : get_weblink_response w wl with
  | error e =>
    rw [hg] at h
    simp at h
  | ok p =>
    obtain ⟨al, r⟩ := p
    obtain ⟨a0, hal⟩ := gwr_shape w wl al r hg
    rw [hg] at h
    subst hal
    dsimp only at h
    cases hh : linkMetaHtml w a0 r with
    | error e =>
      rw [hh] at h
      simp at h
    | ok a1 =>
      rw [hh] at h
      dsimp only at h
      cases hx : linkMetaXml w a1 r with
      | error e =>
        rw [hx] at h
        simp at h
      | ok a2 =>
        rw [hx] at h
        dsimp only at h
        cases hj : linkMetaJson a2 r with
        | error e =>
          rw [hj] at h
          simp at h
        | ok a3 =>
          rw [hj] at h
          dsimp only at h
          simp only [Except.ok.injEq] at h
          exact ⟨a3, h.symm⟩

/-- C9: when annotation returns a link, whether through
get_weblink_response or through link_meta, the returned link keeps every
key it had before with its original value, the annotation key being the
only one added or overwritten, and it does carry an annotation. -/
theorem c9_frame_preservation (w : World) (wl al bl : WebLink) (r : Option Response)
    (h1 : get_weblink_response w wl = Except.ok (al, r))
    (h2 : link_meta w wl = Except.ok bl) :
    (al.uri = wl.uri ∧ al.type_ = wl.type_ ∧ al.title = wl.title ∧
     al.others = wl.others ∧ (al.annot).isSome = true) ∧
    (bl.uri = wl.uri ∧ bl.type_ = wl.type_ ∧ bl.title = wl.title ∧
     bl.others = wl.others ∧ (bl.annot).isSome = true) := by
  obtain ⟨a, rfl⟩ := gwr_shape w wl al r h1
  obtain ⟨b, rfl⟩ := link_meta_shape w wl bl h2
  exact ⟨⟨rfl, rfl, rfl, rfl, rfl⟩, ⟨rfl, rfl, rfl, rfl, rfl⟩⟩

/-- Witness for C9 at a concrete world whose GET yields a 200 plain-text
response: the enriched link keeps the uri, type, title and the extra
hidden key of the input. -/
theorem c9_frame_preservation_witness :
    (alPlain.uri = exLinkPlain.uri ∧ alPlain.type_ = exLinkPlain.type_ ∧
     alPlain.title = exLinkPlain.title ∧ alPlain.others = exLinkPlain.others ∧
     (alPlain.annot).isSome = true) ∧
    (alPlain.uri = exLinkPlain.uri ∧ alPlain.type_ = exLinkPlain.type_ ∧
     alPlain.title = exLinkPlain.title ∧ alPlain.others = exLinkPlain.others ∧
     (alPlain.annot).isSome = true) :=
  c9_frame_preservation wFrame exLinkPlain alPlain alPlain (some respPlain) rfl rfl
